import Mathlib

/-!
Verification of the OTP / 2FA subsystem of the edge-core-js login library.

The pure functions and kit constructions are translated directly from
`src/core/login/otp.js`.  The pieces of the repository that the OTP module
calls but that are not part of the sources given here (`applyKit` /
`serverLogin` from `login.js`, `totp` / `fixOtpKey` from `util/crypto/hotp.js`,
`hashUsername` / `getStashById` from `login-selectors.js`, and the external
`rfc4648` encoders) are modelled from the specification; each such definition
carries a doc comment saying so.

Machine model: the process state (account table plus the on-disk stash tree)
is threaded explicitly; the remote login server is an oracle parameter, and
every operation returns the server calls it made, so that "no request was
sent" and "local state was not mutated" are statable properties.
-/

namespace EdgeOtp

/-! ## Basic data model -/

/-- Modelled from the spec: a generic rose tree, the shape shared by the
in-memory `LoginTree` and the on-disk `LoginStash` (spec section 3); the
recursive tree type itself lives in `login-types.js`, which is not under
`src/`. -/
inductive Tree (α : Type) : Type where
  | node (data : α) (children : List (Tree α))

def Tree.data {α : Type} : Tree α → α
  | .node d _ => d

def Tree.children {α : Type} : Tree α → List (Tree α)
  | .node _ cs => cs

/-- One decrypted login node (spec section 3, `LoginTree`): the fields the OTP
subsystem reads.  Timestamps are modelled as natural numbers. -/
structure LoginNode where
  loginId : String
  appId : String
  userId : String
  username : Option String
  loginKey : String
  passwordAuth : Option String
  otpKey : Option String
  otpTimeout : Option Nat
  otpResetDate : Option Nat
deriving DecidableEq

/-- One on-disk stash node (spec section 3, `LoginStash`): the fields the OTP
subsystem reads, including `lastLogin`. -/
structure StashNode where
  loginId : String
  appId : String
  username : Option String
  otpKey : Option String
  otpTimeout : Option Nat
  otpResetDate : Option Nat
  lastLogin : Option Nat
deriving DecidableEq

/-- Login options (`EdgeAccountOptions` in `types.js`): the fields read by the
OTP subsystem. -/
structure EdgeAccountOptions where
  now : Option Nat
  otp : Option String
  otpKey : Option String
deriving DecidableEq

/-! ## Crypto and encoding collaborators (modelled) -/

/-- Modelled from the spec: a deterministic stand-in hash used by the `totp`
model below; `util/crypto/hotp.js` is not under `src/`. -/
def strHash (s : String) : Nat :=
  s.data.foldl (fun h c => (h * 31 + c.toNat) % 1000000007) 7

/-- Left-pads a decimal rendering of `n` with zeros to six digits. -/
def padCode6 (n : Nat) : String :=
  let ds := Nat.toDigits 10 n
  String.mk (List.replicate (6 - ds.length) '0' ++ ds)

/-- Modelled from the spec: `totp(key, timestamp?)` from `util/crypto/hotp.js`
(not under `src/`) is a standard time-step one-time code generator: it is a
pure function of the secret and the timestamp, its value changes with the
30-second time step, and it yields a zero-padded numeric code. -/
def totp (key : String) (t : Nat) : String :=
  padCode6 ((strHash key + 31 * (t / 30)) % 1000000)

/-- Modelled from the spec: `fixOtpKey` from `util/crypto/hotp.js` (not under
`src/`) normalizes an existing OTP secret to its canonical base32 spelling
without changing the secret. -/
def fixOtpKey (key : String) : String :=
  String.mk (key.data.map Char.toUpper)

/-- RFC 4648 base32 alphabet. -/
def base32Alphabet : List Char :=
  "ABCDEFGHIJKLMNOPQRSTUVWXYZ234567".toList

/-- Modelled from the spec: `base32.stringify` from the external `rfc4648`
library; packs the byte list into 5-bit groups over the base32 alphabet. -/
def base32stringify (bytes : List Nat) : String :=
  let bits := bytes.length * 8
  let groups := (bits + 4) / 5
  let pad := 5 * groups - bits
  let n := (bytes.foldl (fun acc b => acc * 256 + b % 256) 0) * 2 ^ pad
  String.mk ((List.range groups).map fun i =>
    base32Alphabet.getD ((n / 2 ^ (5 * (groups - 1 - i))) % 32) 'A')

/-- Modelled from the spec: `base64.stringify` from the external `rfc4648`
library, applied to the `passwordAuth` proof; an injective textual encoding. -/
def base64stringify (s : String) : String :=
  "b64:" ++ s

/-- Modelled from the spec: `hashUsername` from `login-selectors.js` (not
under `src/`) is a stable hash of the normalized username, so the server
never learns the plaintext username. -/
def hashUsername (username : String) : String :=
  "hash:" ++ username

/-! ## OTP code resolution (translated from src/core/login/otp.js) -/

/-- The test `/[0-9]+/.test(otp)` from `getStashOtp`: true exactly when the
string contains at least one decimal digit (the regex is unanchored). -/
def hasDigit (s : String) : Bool :=
  s.data.any Char.isDigit

/-- Translated from `getLoginOtp` in `src/core/login/otp.js`: the current code
for a logged-in account, or absent when the tree has no OTP key.  The clock
is explicit (the JS code defaults the timestamp to the current time). -/
def getLoginOtp (login : LoginNode) (clock : Nat) : Option String :=
  match login.otpKey with
  | some key => some (totp key clock)
  | none => none

/-- Translated from `getStashOtp` in `src/core/login/otp.js`:
`const { otp, otpKey = stash.otpKey } = opts`; a supplied `otp` that contains
a digit and is shorter than 16 characters is returned as a raw code, any other
supplied `otp` is treated as a secret, and otherwise the resolved key (options
first, then stash) is run through `totp`. -/
def getStashOtp (stash : StashNode) (opts : EdgeAccountOptions) (clock : Nat) :
    Option String :=
  let otpKey := match opts.otpKey with
    | some k => some k
    | none => stash.otpKey
  match opts.otp with
  | some otp =>
      if hasDigit otp && otp.length < 16 then some otp
      else some (totp otp clock)
  | none => otpKey.map fun k => totp k clock

/-- Follows the words of the claim about `getStashOtp`, for comparison with
the translated code: a supplied `otp` that IS a numeric code (all digits)
shorter than 16 digits is returned raw, any other supplied `otp` is treated
as a secret, and so on. -/
def getStashOtpClaimed (stash : StashNode) (opts : EdgeAccountOptions)
    (clock : Nat) : Option String :=
  let otpKey := match opts.otpKey with
    | some k => some k
    | none => stash.otpKey
  match opts.otp with
  | some otp =>
      if (otp.length > 0 && otp.data.all Char.isDigit) && otp.length < 16 then
        some otp
      else some (totp otp clock)
  | none => otpKey.map fun k => totp k clock

/-! ## Tree search and first-match update -/

mutual

/-- Modelled from the spec: `searchTree(root, predicate)` (section 4.1,
`login.js`, not under `src/`): depth-first pre-order search, root first, then
children in order, returning the first node satisfying the predicate. -/
def searchTree {α : Type} (p : α → Bool) : Tree α → Option α
  | .node d cs => if p d then some d else searchForest p cs

/-- Pre-order search over a forest, left to right. -/
def searchForest {α : Type} (p : α → Bool) : List (Tree α) → Option α
  | [] => none
  | t :: ts =>
      match searchTree p t with
      | some d => some d
      | none => searchForest p ts

end

mutual

/-- Updates the first pre-order node satisfying the predicate; `none` when no
node matches.  This is the "locate the node, merge into it" step of the Kit
protocol (spec section 4.2, step 2 and 3). -/
def updateT {α : Type} (p : α → Bool) (f : α → α) : Tree α → Option (Tree α)
  | .node d cs =>
      if p d then some (.node (f d) cs)
      else (updateF p f cs).map fun cs2 => Tree.node d cs2

/-- First-match update over a forest, left to right. -/
def updateF {α : Type} (p : α → Bool) (f : α → α) :
    List (Tree α) → Option (List (Tree α))
  | [] => none
  | t :: ts =>
      match updateT p f t with
      | some t2 => some (t2 :: ts)
      | none => (updateF p f ts).map fun ts2 => t :: ts2

end

/-- Updates the first pre-order match, leaving the tree unchanged when no node
matches. -/
def updateFirst {α : Type} (p : α → Bool) (f : α → α) (t : Tree α) : Tree α :=
  (updateT p f t).getD t

/-! ## The process state -/

/-- The slice of one account's redux state the OTP module reads
(`ai.props.state.accounts[accountId]`): the active login node's tree and the
root login tree. -/
structure AccountState where
  login : Tree LoginNode
  loginTree : Tree LoginNode

/-- Association-list lookup, modelling the JS object indexing used for the
account table. -/
def lookup {α : Type} : List (String × α) → String → Option α
  | [], _ => none
  | (k, v) :: rest, key => if k == key then some v else lookup rest key

/-- The process-wide state the OTP operations touch: the open-account table
and the on-disk stash tree for the user. -/
structure World where
  accounts : List (String × AccountState)
  stashTree : Tree StashNode

/-! ## Kits, patches and the server interface -/

/-- A patch for one optional field of a node, spec section 9: present-with-
value sets the field, present-with-none (JS `undefined`) deletes it, absent
leaves it alone. -/
inductive FieldPatch (α : Type) : Type where
  | keep
  | del
  | set (v : α)
deriving DecidableEq

def FieldPatch.apply {α : Type} : FieldPatch α → Option α → Option α
  | .keep, v => v
  | .del, _ => none
  | .set a, _ => some a

/-- The `kit.login` partial used by the OTP operations. -/
structure LoginPatch where
  otpKey : FieldPatch String
  otpTimeout : FieldPatch Nat
  otpResetDate : FieldPatch Nat
deriving DecidableEq

/-- The `kit.stash` partial used by the OTP operations and by the `lastLogin`
stamp of `serverLogin`. -/
structure StashPatch where
  otpKey : FieldPatch String
  otpTimeout : FieldPatch Nat
  otpResetDate : FieldPatch Nat
  lastLogin : FieldPatch Nat
deriving DecidableEq

def patchLoginNode (p : LoginPatch) (n : LoginNode) : LoginNode :=
  { n with
    otpKey := p.otpKey.apply n.otpKey
    otpTimeout := p.otpTimeout.apply n.otpTimeout
    otpResetDate := p.otpResetDate.apply n.otpResetDate }

def patchStashNode (p : StashPatch) (n : StashNode) : StashNode :=
  { n with
    otpKey := p.otpKey.apply n.otpKey
    otpTimeout := p.otpTimeout.apply n.otpTimeout
    otpResetDate := p.otpResetDate.apply n.otpResetDate
    lastLogin := p.lastLogin.apply n.lastLogin }

/-- The body of `asChangeOtpPayload`: the JSON payload sent to
`/v2/login/otp` on enable and on cancel-reset. -/
structure ChangeOtpPayload where
  otpKey : String
  otpTimeout : Nat
deriving DecidableEq

/-- The authentication request `serverLogin` sends: the fields `repairOtp`
puts in it. -/
structure LoginRequest where
  userId : String
  passwordAuth : Option String
  otp : Option String
deriving DecidableEq

/-- One call to the remote login service, as observed on the wire. -/
inductive Call : Type where
  | change (method : String) (path : String) (payload : Option ChangeOtpPayload)
  | login (request : LoginRequest)
deriving DecidableEq

/-- The remote server, as an oracle deciding whether each call succeeds. -/
def Oracle : Type := Call → Bool

/-- `LoginKit` (spec section 3): an atomic description of a pending state
transition.  `serverPath` present means a server step is requested; the
payload is optional (the disable kit sends none). -/
structure LoginKit where
  serverMethod : Option String
  serverPath : Option String
  server : Option ChangeOtpPayload
  stash : StashPatch
  login : LoginPatch
  loginId : String

/-- The errors the modelled operations can surface.  The JS code throws plain
`Error` objects; the spec's taxonomy files the 2FA-not-enabled and
no-password throws under `ConfigurationError`, which here carries the thrown
message. -/
inductive Err : Type where
  | serverError
  | configError (msg : String)
  | missingAccount
  | missingStash
deriving DecidableEq

/-- The observable outcome of one stateful operation: its result, the final
process state (returned even on error, so partial mutation would be visible),
and the server calls made. -/
structure Outcome where
  result : Except Err Unit
  world : World
  calls : List Call

/-! ## Kit application (modelled from the spec) -/

/-- The server step a kit describes, if any. -/
def kitServerCall (kit : LoginKit) : Option Call :=
  kit.serverPath.map fun path =>
    Call.change (kit.serverMethod.getD "POST") path kit.server

def loginIdIs (loginId : String) : LoginNode → Bool :=
  fun n => n.loginId == loginId

def stashIdIs (loginId : String) : StashNode → Bool :=
  fun n => n.loginId == loginId

/-- The local half of kit application, spec section 4.2 steps 2 and 3: merge
`kit.stash` into the stash node with matching `loginId` (first pre-order
match) and `kit.login` into the matching in-memory tree nodes. -/
def mergeAccount (kit : LoginKit) (a : AccountState) : AccountState :=
  ⟨updateFirst (loginIdIs kit.loginId) (patchLoginNode kit.login) a.login,
   updateFirst (loginIdIs kit.loginId) (patchLoginNode kit.login) a.loginTree⟩

def mergeLocal (w : World) (kit : LoginKit) : World :=
  ⟨w.accounts.map fun kv => (kv.1, mergeAccount kit kv.2),
   updateFirst (stashIdIs kit.loginId) (patchStashNode kit.stash) w.stashTree⟩

/-- Modelled from the spec: `applyKit` (section 4.2, `login.js`, not under
`src/`).  If the kit describes a server step, it runs first, and a
non-success response aborts the whole operation with no local mutation; on
server success (or when no server step was requested) the stash and tree
nodes with the kit's `loginId` receive the merge. -/
def applyKit (oracle : Oracle) (w : World) (kit : LoginKit) : Outcome :=
  match kitServerCall kit with
  | some call =>
      if oracle call then ⟨.ok (), mergeLocal w kit, [call]⟩
      else ⟨.error .serverError, w, [call]⟩
  | none => ⟨.ok (), mergeLocal w kit, []⟩

/-- Modelled from the spec: `serverLogin` (section 4.3, `login.js`, not under
`src/`), restricted to what the OTP claims observe.  An OTP code is attached
from `getStashOtp` when the request does not already carry one; the request
goes to the login endpoint; on success `lastLogin = now ?? current time` is
stamped into the target stash node via a kit. -/
def serverLogin (oracle : Oracle) (clock : Nat) (w : World) (stash : StashNode)
    (opts : EdgeAccountOptions) (request : LoginRequest) : Outcome :=
  let req := match request.otp with
    | some _ => request
    | none => { request with otp := getStashOtp stash opts clock }
  if oracle (.login req) then
    let kit : LoginKit :=
      ⟨none, none, none,
       ⟨.keep, .keep, .keep, .set (opts.now.getD clock)⟩,
       ⟨.keep, .keep, .keep⟩,
       stash.loginId⟩
    ⟨.ok (), mergeLocal w kit, [.login req]⟩
  else ⟨.error .serverError, w, [.login req]⟩

/-! ## The OTP operations (translated from src/core/login/otp.js) -/

/-- The secret `enableOtp` chooses: the tree's existing key, normalized, when
one exists, else base32 over the 10 freshly drawn random bytes
(`ai.props.io.random(10)`), which are passed in explicitly here. -/
def enableOtpSecret (rand : List Nat) (root : LoginNode) : String :=
  match root.otpKey with
  | some k => fixOtpKey k
  | none => base32stringify rand

/-- The kit `enableOtp` builds: payload `{ otpKey, otpTimeout }` to
`/v2/login/otp`, and stash/login partials that set `otpKey` and `otpTimeout`
and delete `otpResetDate`. -/
def enableOtpKit (rand : List Nat) (root : LoginNode) (otpTimeout : Nat) :
    LoginKit :=
  ⟨none, some "/v2/login/otp",
   some ⟨enableOtpSecret rand root, otpTimeout⟩,
   ⟨.set (enableOtpSecret rand root), .set otpTimeout, .del, .keep⟩,
   ⟨.set (enableOtpSecret rand root), .set otpTimeout, .del⟩,
   root.loginId⟩

/-- Translated from `enableOtp` in `src/core/login/otp.js`. -/
def enableOtp (oracle : Oracle) (rand : List Nat) (w : World)
    (accountId : String) (otpTimeout : Nat) : Outcome :=
  match lookup w.accounts accountId with
  | none => ⟨.error .missingAccount, w, []⟩
  | some acct =>
      applyKit oracle w (enableOtpKit rand acct.loginTree.data otpTimeout)

/-- The kit `disableOtp` builds: a DELETE to `/v2/login/otp` with no payload,
and stash/login partials that delete `otpKey`, `otpResetDate` and
`otpTimeout`. -/
def disableOtpKit (loginId : String) : LoginKit :=
  ⟨some "DELETE", some "/v2/login/otp", none,
   ⟨.del, .del, .del, .keep⟩,
   ⟨.del, .del, .del⟩,
   loginId⟩

/-- Translated from `disableOtp` in `src/core/login/otp.js`. -/
def disableOtp (oracle : Oracle) (w : World) (accountId : String) : Outcome :=
  match lookup w.accounts accountId with
  | none => ⟨.error .missingAccount, w, []⟩
  | some acct => applyKit oracle w (disableOtpKit acct.loginTree.data.loginId)

/-- The kit `cancelOtpReset` builds: the current `{ otpTimeout, otpKey }`
re-asserted to `/v2/login/otp`, and stash/login partials that delete only
`otpResetDate`. -/
def cancelOtpResetKit (loginId : String) (otpKey : String) (otpTimeout : Nat) :
    LoginKit :=
  ⟨none, some "/v2/login/otp",
   some ⟨otpKey, otpTimeout⟩,
   ⟨.keep, .keep, .del, .keep⟩,
   ⟨.keep, .keep, .del⟩,
   loginId⟩

/-- Translated from `cancelOtpReset` in `src/core/login/otp.js`: throws when
`otpTimeout == null || otpKey == null`, else applies the re-assert kit. -/
def cancelOtpReset (oracle : Oracle) (w : World) (accountId : String) :
    Outcome :=
  match lookup w.accounts accountId with
  | none => ⟨.error .missingAccount, w, []⟩
  | some acct =>
      match acct.loginTree.data.otpTimeout, acct.loginTree.data.otpKey with
      | some otpTimeout, some otpKey =>
          applyKit oracle w
            (cancelOtpResetKit acct.loginTree.data.loginId otpKey otpTimeout)
      | none, _ =>
          ⟨.error (.configError "Cannot cancel 2FA reset: 2FA is not enabled."),
           w, []⟩
      | _, none =>
          ⟨.error (.configError "Cannot cancel 2FA reset: 2FA is not enabled."),
           w, []⟩

/-- The request body `resetOtp` sends. -/
structure OtpResetRequest where
  userId : String
  otpResetAuth : String
deriving DecidableEq

/-- Translated from `resetOtp` in `src/core/login/otp.js`: hash the username,
send a DELETE to `/v2/login/otp` bearing the reset token as `otpResetAuth`,
and return the `otpResetDate` from the server's reply.  The server is a
function from the wire call to the reported reset date (`none` = failure),
and the calls made are returned alongside the result. -/
def resetOtp (server : String → String → OtpResetRequest → Option Nat)
    (username : String) (resetToken : String) :
    Except Err Nat × List (String × String × OtpResetRequest) :=
  let request : OtpResetRequest :=
    ⟨base64stringify (hashUsername username), resetToken⟩
  match server "DELETE" "/v2/login/otp" request with
  | some otpResetDate => (.ok otpResetDate, [("DELETE", "/v2/login/otp", request)])
  | none => (.error .serverError, [("DELETE", "/v2/login/otp", request)])

/-- Translated from `repairOtp` in `src/core/login/otp.js`: a missing account
is a silent no-op; `getStashById` (modelled: pre-order search of the stash
tree for the login's `loginId`, `login-selectors.js` not under `src/`) must
find the stash node; a missing `passwordAuth` is a fatal error; otherwise a
login request carrying the `userId`, the base64 `passwordAuth` proof, and
`totp` over the candidate key goes through `serverLogin` with
`now = stashTree.lastLogin`. -/
def repairOtp (oracle : Oracle) (clock : Nat) (w : World) (accountId : String)
    (otpKey : String) : Outcome :=
  match lookup w.accounts accountId with
  | none => ⟨.ok (), w, []⟩
  | some acct =>
      match searchTree (stashIdIs acct.login.data.loginId) w.stashTree with
      | none => ⟨.error .missingStash, w, []⟩
      | some stash =>
          match acct.login.data.passwordAuth with
          | none =>
              ⟨.error
                 (.configError
                   "Cannot repair OTP: There is no password on this account"),
               w, []⟩
          | some pa =>
              let request : LoginRequest :=
                ⟨acct.login.data.userId, some (base64stringify pa),
                 some (totp otpKey clock)⟩
              let opts : EdgeAccountOptions :=
                ⟨w.stashTree.data.lastLogin, none, none⟩
              serverLogin oracle clock w stash opts request

/-! ## Helper lemmas -/

theorem lookup_map {α β : Type} (g : α → β) :
    ∀ (l : List (String × α)) (k : String),
    lookup (l.map fun kv => (kv.1, g kv.2)) k = (lookup l k).map g
  | [], _ => rfl
  | (k1, _) :: rest, k => by
      by_cases h : (k1 == k) = true
      · simp [lookup, h]
      · simp [lookup, h, lookup_map g rest k]

mutual

theorem updateT_isSome {α : Type} (p : α → Bool) (f : α → α) :
    ∀ t : Tree α, (updateT p f t).isSome = (searchTree p t).isSome
  | .node d cs => by
      by_cases h : p d = true
      · simp [updateT, searchTree, h]
      · simp [updateT, searchTree, h, updateF_isSome p f cs]

theorem updateF_isSome {α : Type} (p : α → Bool) (f : α → α) :
    ∀ ts : List (Tree α), (updateF p f ts).isSome = (searchForest p ts).isSome
  | [] => rfl
  | t :: ts => by
      have ht := updateT_isSome p f t
      cases hu : updateT p f t with
      | some t2 =>
          rw [hu] at ht
          cases hs : searchTree p t with
          | some d => simp [updateF, searchForest, hu, hs]
          | none => rw [hs] at ht; simp at ht
      | none =>
          rw [hu] at ht
          cases hs : searchTree p t with
          | some d => rw [hs] at ht; simp at ht
          | none => simp [updateF, searchForest, hu, hs, updateF_isSome p f ts]

end

mutual

theorem searchTree_updateT {α : Type} (p : α → Bool) (f : α → α)
    (hp : ∀ a, p (f a) = p a) :
    ∀ (t t2 : Tree α), updateT p f t = some t2 →
      searchTree p t2 = (searchTree p t).map f
  | .node d cs, t2 => by
      by_cases h : p d = true
      · intro hu
        simp only [updateT, h, if_pos] at hu
        cases hu
        simp [searchTree, h, hp d]
      · intro hu
        simp only [updateT, h, if_neg, Bool.not_eq_true] at hu
        cases hcs : updateF p f cs with
        | some cs2 =>
            rw [hcs] at hu
            simp only [Option.map_some'] at hu
            cases hu
            simp [searchTree, h, searchForest_updateF p f hp cs cs2 hcs]
        | none => rw [hcs] at hu; simp at hu

theorem searchForest_updateF {α : Type} (p : α → Bool) (f : α → α)
    (hp : ∀ a, p (f a) = p a) :
    ∀ (ts ts2 : List (Tree α)), updateF p f ts = some ts2 →
      searchForest p ts2 = (searchForest p ts).map f
  | [], _ => by intro hu; simp [updateF] at hu
  | t :: ts, ts2 => by
      intro hu
      cases hut : updateT p f t with
      | some t2 =>
          simp only [updateF, hut] at hu
          cases hu
          have hsearch := searchTree_updateT p f hp t t2 hut
          cases hs : searchTree p t with
          | some d => simp [searchForest, hs, hsearch, hs]
          | none =>
              have := updateT_isSome p f t
              rw [hut, hs] at this
              simp at this
      | none =>
          simp only [updateF, hut] at hu
          cases huf : updateF p f ts with
          | some ts3 =>
              rw [huf] at hu
              simp only [Option.map_some'] at hu
              cases hu
              have hs : searchTree p t = none := by
                have := updateT_isSome p f t
                rw [hut] at this
                cases hs2 : searchTree p t with
                | some d => rw [hs2] at this; simp at this
                | none => rfl
              simp [searchForest, hs, searchForest_updateF p f hp ts ts3 huf]
          | none => rw [huf] at hu; simp at hu

end

/-- After a first-match update whose function preserves the predicate, the
pre-order search finds the updated image of the node it used to find. -/
theorem searchTree_updateFirst {α : Type} (p : α → Bool) (f : α → α)
    (hp : ∀ a, p (f a) = p a) (t : Tree α) :
    searchTree p (updateFirst p f t) = (searchTree p t).map f := by
  unfold updateFirst
  cases hu : updateT p f t with
  | some t2 => simpa using searchTree_updateT p f hp t t2 hu
  | none =>
      have := updateT_isSome p f t
      rw [hu] at this
      cases hs : searchTree p t with
      | some d => rw [hs] at this; simp at this
      | none => simp [hs]

/-- The first-match update rewrites the root when the root matches. -/
theorem updateFirst_root {α : Type} (p : α → Bool) (f : α → α) (d : α)
    (cs : List (Tree α)) (h : p d = true) :
    updateFirst p f (Tree.node d cs) = Tree.node (f d) cs := by
  simp [updateFirst, updateT, h]

/-- The first-match update leaves the root data alone when the root does not
match. -/
theorem updateFirst_root_data_of_no_match {α : Type} (p : α → Bool)
    (f : α → α) (d : α) (cs : List (Tree α)) (h : p d = false) :
    (updateFirst p f (Tree.node d cs)).data = d := by
  unfold updateFirst updateT
  rw [h]
  cases updateF p f cs <;> simp [Tree.data]

theorem patchLoginNode_loginId (p : LoginPatch) (n : LoginNode) :
    (patchLoginNode p n).loginId = n.loginId := rfl

theorem patchStashNode_loginId (p : StashPatch) (n : StashNode) :
    (patchStashNode p n).loginId = n.loginId := rfl

/-! ## Concrete inputs used by witnesses and counterexamples -/

/-- A server that rejects every call. -/
def oracleFail : Oracle := fun _ => false

/-- A server that accepts every call. -/
def oracleTrue : Oracle := fun _ => true

def exNode0 : LoginNode :=
  ⟨"L0", "", "U0", some "bob", "KEY0", some "PA0", none, none, none⟩

def exStash0 : StashNode :=
  ⟨"L0", "", some "bob", none, none, none, some 1000⟩

def exWorld0 : World :=
  ⟨[("acct", ⟨.node exNode0 [], .node exNode0 []⟩)], .node exStash0 []⟩

def exWorldNoAccounts : World := ⟨[], .node exStash0 []⟩

/-- A stash node with a cached OTP key. -/
def exStashCached : StashNode :=
  ⟨"L0", "", some "bob", some "CACHEDKEY", some 7, none, some 1000⟩

/-! ## C1: applyKit is all-or-nothing -/

/-- C1: `applyKit` is all-or-nothing: when the kit's server call gets a
non-success response, the operation rejects with a server error, the process
state (on-disk stash tree and every account's in-memory trees) is exactly its
pre-call value, and the only wire traffic is the failed call itself; local
state is mutated only after server success. -/
theorem applyKit_all_or_nothing (oracle : Oracle) (w : World) (kit : LoginKit)
    (call : Call) (hcall : kitServerCall kit = some call)
    (hfail : oracle call = false) :
    (applyKit oracle w kit).result = .error .serverError ∧
    (applyKit oracle w kit).world = w ∧
    (applyKit oracle w kit).calls = [call] := by
  simp [applyKit, hcall, hfail]

theorem applyKit_all_or_nothing_witness :
    (applyKit oracleFail exWorld0 (disableOtpKit "L0")).result =
        .error .serverError ∧
    (applyKit oracleFail exWorld0 (disableOtpKit "L0")).world = exWorld0 ∧
    (applyKit oracleFail exWorld0 (disableOtpKit "L0")).calls =
        [.change "DELETE" "/v2/login/otp" none] :=
  applyKit_all_or_nothing oracleFail exWorld0 (disableOtpKit "L0")
    (.change "DELETE" "/v2/login/otp" none) rfl rfl

/-! ## C2: getStashOtp resolution order -/

def exOptsMixed : EdgeAccountOptions := ⟨none, some "ABC1", none⟩

/-- C2 counterexample: with `opts.otp = "ABC1"` — not a numeric code, but
containing a digit and shorter than 16 characters — the code returns the
string raw, while the claim's resolution order would treat it as a secret and
apply `totp`, yielding a different value (the unanchored regex
`/[0-9]+/.test(otp)` checks "contains a digit", not "is numeric"). -/
theorem getStashOtp_numeric_counterexample :
    getStashOtp exStash0 exOptsMixed 0 = some "ABC1" ∧
    getStashOtpClaimed exStash0 exOptsMixed 0 = some (totp "ABC1" 0) ∧
    totp "ABC1" 0 ≠ "ABC1" := by
  refine ⟨by decide, by decide, by decide⟩

/-- C2 (amended): resolution order of `getStashOtp`: a supplied `otp` that
contains at least one digit and is shorter than 16 characters is returned as
a raw code; any other supplied `otp` is treated as a secret and run through
`totp`; otherwise `totp` over a key supplied in the options; otherwise `totp`
over the stash's cached key if present; otherwise absent. -/
theorem getStashOtp_resolution (stash : StashNode) (opts : EdgeAccountOptions)
    (clock : Nat) :
    (∀ o, opts.otp = some o → hasDigit o = true → o.length < 16 →
       getStashOtp stash opts clock = some o) ∧
    (∀ o, opts.otp = some o → ¬(hasDigit o = true ∧ o.length < 16) →
       getStashOtp stash opts clock = some (totp o clock)) ∧
    (∀ k, opts.otp = none → opts.otpKey = some k →
       getStashOtp stash opts clock = some (totp k clock)) ∧
    (opts.otp = none → opts.otpKey = none →
       getStashOtp stash opts clock = stash.otpKey.map fun k => totp k clock)
    := by
  refine ⟨?_, ?_, ?_, ?_⟩
  · intro o ho hd hl
    simp [getStashOtp, ho, hd, hl]
  · intro o ho hnot
    have hcond : (hasDigit o && decide (o.length < 16)) = false := by
      by_cases hd : hasDigit o = true
      · have hl : ¬ o.length < 16 := fun hl => hnot ⟨hd, hl⟩
        simp [hd, hl]
      · simp only [Bool.not_eq_true] at hd
        simp [hd]
    simp [getStashOtp, ho, hcond]
  · intro k ho hk
    simp [getStashOtp, ho, hk]
  · intro ho hk
    simp [getStashOtp, ho, hk]

theorem getStashOtp_resolution_witness :
    getStashOtp exStashCached ⟨none, some "123456", none⟩ 0 = some "123456" ∧
    getStashOtp exStashCached ⟨none, none, none⟩ 0 =
      (exStashCached.otpKey.map fun k => totp k 0) :=
  ⟨(getStashOtp_resolution exStashCached ⟨none, some "123456", none⟩ 0).1
      "123456" rfl (by decide) (by decide),
   (getStashOtp_resolution exStashCached ⟨none, none, none⟩ 0).2.2.2 rfl rfl⟩

/-! ## C9: totp is deterministic and getLoginOtp is a function of tree and
clock -/

/-- C9: `totp` is a pure function — two invocations at the same key and
timestamp agree — and `getLoginOtp` returns `totp` over the tree's `otpKey`
when one is present and absent otherwise, so it too is determined by the tree
and the clock. -/
theorem totp_deterministic_getLoginOtp :
    (∀ (key : String) (t : Nat), totp key t = totp key t) ∧
    (∀ (login : LoginNode) (clock : Nat),
       getLoginOtp login clock = login.otpKey.map fun k => totp k clock) := by
  refine ⟨fun _ _ => rfl, fun login clock => ?_⟩
  cases h : login.otpKey <;> simp [getLoginOtp, h]

/-! ## C10: repairOtp on a missing account is a silent no-op -/

/-- C10: for an `accountId` absent from the account state table, `repairOtp`
returns successfully, makes no server call, and leaves the process state
untouched — a silent no-op rather than a `ConfigurationError`. -/
theorem repairOtp_missing_account (oracle : Oracle) (clock : Nat) (w : World)
    (accountId : String) (otpKey : String)
    (h : lookup w.accounts accountId = none) :
    repairOtp oracle clock w accountId otpKey = ⟨.ok (), w, []⟩ := by
  simp [repairOtp, h]

theorem repairOtp_missing_account_witness :
    repairOtp oracleTrue 0 exWorldNoAccounts "missing" "SOMEKEY" =
      ⟨.ok (), exWorldNoAccounts, []⟩ :=
  repairOtp_missing_account oracleTrue 0 exWorldNoAccounts "missing" "SOMEKEY"
    rfl

/-! ## Further helper lemmas about applyKit and merging -/

theorem applyKit_not_configError (oracle : Oracle) (w : World) (kit : LoginKit)
    (msg : String) :
    (applyKit oracle w kit).result ≠ .error (.configError msg) := by
  unfold applyKit
  cases hcall : kitServerCall kit with
  | none => simp
  | some call => cases ho : oracle call <;> simp [ho]

theorem applyKit_ok (oracle : Oracle) (w : World) (kit : LoginKit) (call : Call)
    (hcall : kitServerCall kit = some call)
    (hok : (applyKit oracle w kit).result = .ok ()) :
    applyKit oracle w kit = ⟨.ok (), mergeLocal w kit, [call]⟩ := by
  cases ho : oracle call with
  | false => simp [applyKit, hcall, ho] at hok
  | true => simp [applyKit, hcall, ho]

theorem applyKit_world_of_ok (oracle : Oracle) (w : World) (kit : LoginKit)
    (hok : (applyKit oracle w kit).result = .ok ()) :
    (applyKit oracle w kit).world = mergeLocal w kit := by
  cases hcall : kitServerCall kit with
  | none => simp [applyKit, hcall]
  | some call =>
      cases ho : oracle call with
      | false => simp [applyKit, hcall, ho] at hok
      | true => simp [applyKit, hcall, ho]

theorem lookup_mergeLocal (kit : LoginKit) (w : World) (accountId : String) :
    lookup (mergeLocal w kit).accounts accountId =
      (lookup w.accounts accountId).map (mergeAccount kit) := by
  simp [mergeLocal, lookup_map]

/-- When the kit targets the root of the account's login tree, merging
rewrites exactly the root node. -/
theorem mergeAccount_loginTree_root (kit : LoginKit) (lg : Tree LoginNode)
    (d : LoginNode) (cs : List (Tree LoginNode))
    (hd : d.loginId = kit.loginId) :
    (mergeAccount kit ⟨lg, .node d cs⟩).loginTree =
      .node (patchLoginNode kit.login d) cs := by
  have hp : loginIdIs kit.loginId d = true := by simp [loginIdIs, hd]
  simp [mergeAccount, updateFirst_root _ _ _ _ hp]

/-! ## C3: when cancelOtpReset raises the ConfigurationError -/

def exNodeKeyOnly : LoginNode :=
  ⟨"L1", "", "U1", some "bob", "KEY1", some "PA1", some "OTPSECRET", none,
   none⟩

def exWorldKeyOnly : World :=
  ⟨[("acct", ⟨.node exNodeKeyOnly [], .node exNodeKeyOnly []⟩)],
   .node exStash0 []⟩

/-- C3 counterexample: on a tree whose root has an `otpKey` but no
`otpTimeout`, `cancelOtpReset` raises the ConfigurationError even though
`otpTimeout` and `otpKey` are not both absent — the code tests
`otpTimeout == null || otpKey == null`, not "both absent". -/
theorem cancelOtpReset_counterexample :
    (cancelOtpReset oracleTrue exWorldKeyOnly "acct").result =
      .error (.configError "Cannot cancel 2FA reset: 2FA is not enabled.") ∧
    ¬(exNodeKeyOnly.otpTimeout = none ∧ exNodeKeyOnly.otpKey = none) := by
  exact ⟨rfl, by simp [exNodeKeyOnly]⟩

/-- C3 (amended): `cancelOtpReset` fails with the ConfigurationError exactly
when `otpTimeout` or `otpKey` is absent from the login tree (either one
missing suffices, not only both); in particular, `disableOtp` followed
immediately by `cancelOtpReset` on the same account raises this error. -/
theorem cancelOtpReset_config_iff (oracle : Oracle) (w : World)
    (accountId : String) (acct : AccountState)
    (h : lookup w.accounts accountId = some acct) :
    ((∃ msg, (cancelOtpReset oracle w accountId).result =
        .error (.configError msg)) ↔
      (acct.loginTree.data.otpTimeout = none ∨
        acct.loginTree.data.otpKey = none)) ∧
    (∀ (oracle2 oracle3 : Oracle) (o1 : Outcome),
       disableOtp oracle2 w accountId = o1 → o1.result = .ok () →
       (cancelOtpReset oracle3 o1.world accountId).result =
         .error (.configError "Cannot cancel 2FA reset: 2FA is not enabled."))
    := by
  constructor
  · cases hT : acct.loginTree.data.otpTimeout with
    | none =>
        simp only [cancelOtpReset, h, hT]
        exact ⟨fun _ => Or.inl trivial, fun _ => ⟨_, rfl⟩⟩
    | some T =>
        cases hK : acct.loginTree.data.otpKey with
        | none =>
            simp only [cancelOtpReset, h, hT, hK]
            exact ⟨fun _ => Or.inr trivial, fun _ => ⟨_, rfl⟩⟩
        | some K =>
            simp only [cancelOtpReset, h, hT, hK]
            constructor
            · rintro ⟨msg, hmsg⟩
              exact absurd hmsg (applyKit_not_configError _ _ _ _)
            · rintro (h1 | h1) <;> simp_all
  · intro oracle2 oracle3 o1 ho1 hok
    obtain ⟨lg, lt⟩ := acct
    obtain ⟨d, cs⟩ := lt
    simp only [disableOtp, h] at ho1
    subst ho1
    rw [applyKit_world_of_ok _ _ _ hok]
    have hlook :
        lookup (mergeLocal w (disableOtpKit (Tree.data (.node d cs)).loginId)).accounts
            accountId =
          some (mergeAccount (disableOtpKit (Tree.data (.node d cs)).loginId)
            ⟨lg, .node d cs⟩) := by
      rw [lookup_mergeLocal, h]
      rfl
    have hroot := mergeAccount_loginTree_root
      (disableOtpKit (Tree.data (.node d cs)).loginId) lg d cs rfl
    simp only [cancelOtpReset, hlook, hroot]
    rfl

def exNodeEnabled : LoginNode :=
  ⟨"L2", "", "U2", some "bob", "KEY2", some "PA2", some "OTPSECRET2", some 7,
   some 99⟩

def exStashEnabled : StashNode :=
  ⟨"L2", "", some "bob", some "OTPSECRET2", some 7, some 99, some 1000⟩

def exWorldEnabled : World :=
  ⟨[("acct", ⟨.node exNodeEnabled [], .node exNodeEnabled []⟩)],
   .node exStashEnabled []⟩

theorem cancelOtpReset_config_iff_witness :
    (cancelOtpReset oracleTrue
        (disableOtp oracleTrue exWorldEnabled "acct").world "acct").result =
      .error (.configError "Cannot cancel 2FA reset: 2FA is not enabled.") :=
  (cancelOtpReset_config_iff oracleTrue exWorldEnabled "acct"
      ⟨.node exNodeEnabled [], .node exNodeEnabled []⟩ rfl).2
    oracleTrue oracleTrue _ rfl rfl

/-! ## serverLogin helper lemmas -/

theorem serverLogin_calls (oracle : Oracle) (clock : Nat) (w : World)
    (stash : StashNode) (opts : EdgeAccountOptions) (request : LoginRequest)
    (c : String) (hotp : request.otp = some c) :
    (serverLogin oracle clock w stash opts request).calls = [.login request]
    := by
  obtain ⟨uid, pa, otp⟩ := request
  simp only at hotp
  subst hotp
  cases ho : oracle (.login ⟨uid, pa, some c⟩) <;> simp [serverLogin, ho]

theorem serverLogin_world_fail (oracle : Oracle) (clock : Nat) (w : World)
    (stash : StashNode) (opts : EdgeAccountOptions) (request : LoginRequest)
    (c : String) (hotp : request.otp = some c)
    (hfail : oracle (.login request) = false) :
    (serverLogin oracle clock w stash opts request).world = w := by
  obtain ⟨uid, pa, otp⟩ := request
  simp only at hotp
  subst hotp
  simp [serverLogin, hfail]

theorem serverLogin_world_ok (oracle : Oracle) (clock : Nat) (w : World)
    (stash : StashNode) (opts : EdgeAccountOptions) (request : LoginRequest)
    (c : String) (hotp : request.otp = some c)
    (hok : oracle (.login request) = true) :
    (serverLogin oracle clock w stash opts request).world =
      mergeLocal w
        ⟨none, none, none,
         ⟨.keep, .keep, .keep, .set (opts.now.getD clock)⟩,
         ⟨.keep, .keep, .keep⟩, stash.loginId⟩ := by
  obtain ⟨uid, pa, otp⟩ := request
  simp only at hotp
  subst hotp
  simp [serverLogin, hok]

/-- When the caller passes `now` equal to the stash root's current
`lastLogin`, `serverLogin` leaves that value in place whether it succeeds or
fails. -/
theorem serverLogin_lastLogin (oracle : Oracle) (clock : Nat) (w : World)
    (stash : StashNode) (opts : EdgeAccountOptions) (request : LoginRequest)
    (c : String) (t0 : Nat) (hotp : request.otp = some c)
    (hnow : opts.now = some t0)
    (hpre : w.stashTree.data.lastLogin = some t0) :
    (serverLogin oracle clock w stash opts request).world.stashTree.data.lastLogin
      = some t0 := by
  cases ho : oracle (.login request) with
  | false =>
      rw [serverLogin_world_fail oracle clock w stash opts request c hotp ho]
      exact hpre
  | true =>
      rw [serverLogin_world_ok oracle clock w stash opts request c hotp ho]
      show (updateFirst (stashIdIs stash.loginId)
          (patchStashNode ⟨.keep, .keep, .keep, .set (opts.now.getD clock)⟩)
          w.stashTree).data.lastLogin = some t0
      cases hT : w.stashTree with
      | node sd scs =>
          by_cases hps : stashIdIs stash.loginId sd = true
          · rw [updateFirst_root _ _ _ _ hps]
            simp [Tree.data, patchStashNode, FieldPatch.apply, hnow]
          · rw [updateFirst_root_data_of_no_match _ _ _ _
              (by simpa using hps)]
            rw [hT] at hpre
            exact hpre

/-! ## C4: the repairOtp contract -/

/-- C4: `repairOtp` fails with the fatal ConfigurationError when the account
has no `passwordAuth`; otherwise the single request it sends carries the
account's `userId`, its base64 `passwordAuth` proof, and `totp` over the
user-supplied candidate key, and because it passes `now = stashTree.lastLogin`
to `serverLogin`, a present `lastLogin` value on the stash root is not
perturbed. -/
theorem repairOtp_contract (oracle : Oracle) (clock : Nat) (w : World)
    (accountId : String) (candidateKey : String) (acct : AccountState)
    (stash : StashNode)
    (h : lookup w.accounts accountId = some acct)
    (hstash : searchTree (stashIdIs acct.login.data.loginId) w.stashTree =
      some stash) :
    (acct.login.data.passwordAuth = none →
       repairOtp oracle clock w accountId candidateKey =
         ⟨.error (.configError
            "Cannot repair OTP: There is no password on this account"),
          w, []⟩) ∧
    (∀ pa, acct.login.data.passwordAuth = some pa →
       (repairOtp oracle clock w accountId candidateKey).calls =
         [.login ⟨acct.login.data.userId, some (base64stringify pa),
                  some (totp candidateKey clock)⟩] ∧
       (∀ t0, w.stashTree.data.lastLogin = some t0 →
          (repairOtp oracle clock w accountId
              candidateKey).world.stashTree.data.lastLogin = some t0)) := by
  constructor
  · intro hpa
    simp [repairOtp, h, hstash, hpa]
  · intro pa hpa
    simp only [repairOtp, h, hstash, hpa]
    constructor
    · exact serverLogin_calls oracle clock w stash _ _ _ rfl
    · intro t0 ht0
      exact serverLogin_lastLogin oracle clock w stash _ _
        (totp candidateKey clock) t0 rfl ht0 ht0

theorem repairOtp_contract_witness :
    (repairOtp oracleTrue 0 exWorld0 "acct" "CANDKEY").calls =
      [.login ⟨"U0", some (base64stringify "PA0"), some (totp "CANDKEY" 0)⟩] ∧
    (repairOtp oracleTrue 0 exWorld0 "acct"
        "CANDKEY").world.stashTree.data.lastLogin = some 1000 := by
  have h := (repairOtp_contract oracleTrue 0 exWorld0 "acct" "CANDKEY"
      ⟨.node exNode0 [], .node exNode0 []⟩ exStash0 rfl rfl).2 "PA0" rfl
  exact ⟨h.1, h.2 1000 rfl⟩

/-! ## Root-merge helper lemmas -/

theorem mergeAccount_root_data (kit : LoginKit) (a : AccountState)
    (hd : a.loginTree.data.loginId = kit.loginId) :
    (mergeAccount kit a).loginTree.data =
      patchLoginNode kit.login a.loginTree.data := by
  obtain ⟨lg, lt⟩ := a
  obtain ⟨d, cs⟩ := lt
  show (mergeAccount kit ⟨lg, .node d cs⟩).loginTree.data =
    patchLoginNode kit.login d
  rw [mergeAccount_loginTree_root kit lg d cs hd]
  rfl

theorem mergeAccount_root_loginId (kit : LoginKit) (a : AccountState)
    (hd : a.loginTree.data.loginId = kit.loginId) :
    (mergeAccount kit a).loginTree.data.loginId =
      a.loginTree.data.loginId := by
  rw [mergeAccount_root_data _ _ hd]
  rfl

/-- On success, `disableOtp` leaves the account's root tree node and the stash
node with that `loginId` free of all three OTP fields. -/
theorem disableOtp_clears (oracle : Oracle) (w : World) (accountId : String)
    (acct : AccountState) (o : Outcome)
    (h : lookup w.accounts accountId = some acct)
    (ho : disableOtp oracle w accountId = o) (hok : o.result = .ok ()) :
    (∃ acct2, lookup o.world.accounts accountId = some acct2 ∧
       acct2.loginTree.data.otpKey = none ∧
       acct2.loginTree.data.otpTimeout = none ∧
       acct2.loginTree.data.otpResetDate = none) ∧
    (∀ s, searchTree (stashIdIs acct.loginTree.data.loginId)
        o.world.stashTree = some s →
       s.otpKey = none ∧ s.otpTimeout = none ∧ s.otpResetDate = none) := by
  simp only [disableOtp, h] at ho
  subst ho
  rw [applyKit_world_of_ok _ _ _ hok]
  constructor
  · refine ⟨mergeAccount (disableOtpKit acct.loginTree.data.loginId) acct,
      ?_, ?_, ?_, ?_⟩
    · rw [lookup_mergeLocal, h]
      rfl
    · rw [mergeAccount_root_data _ _ rfl]
      rfl
    · rw [mergeAccount_root_data _ _ rfl]
      rfl
    · rw [mergeAccount_root_data _ _ rfl]
      rfl
  · intro s hs
    have hs2 : searchTree (stashIdIs acct.loginTree.data.loginId)
        (updateFirst (stashIdIs acct.loginTree.data.loginId)
          (patchStashNode ⟨.del, .del, .del, .keep⟩) w.stashTree) = some s :=
      hs
    rw [searchTree_updateFirst (stashIdIs acct.loginTree.data.loginId)
      (patchStashNode ⟨.del, .del, .del, .keep⟩) (fun a => rfl)] at hs2
    cases hsearch : searchTree (stashIdIs acct.loginTree.data.loginId)
        w.stashTree with
    | none => rw [hsearch] at hs2; simp at hs2
    | some s0 =>
        rw [hsearch] at hs2
        simp only [Option.map_some'] at hs2
        obtain rfl : patchStashNode ⟨.del, .del, .del, .keep⟩ s0 = s := by
          injection hs2
        exact ⟨rfl, rfl, rfl⟩

theorem enableOtp_ok_world (oracle : Oracle) (rand : List Nat) (w : World)
    (accountId : String) (otpTimeout : Nat) (acct : AccountState)
    (h : lookup w.accounts accountId = some acct)
    (hok : (enableOtp oracle rand w accountId otpTimeout).result = .ok ()) :
    (enableOtp oracle rand w accountId otpTimeout).world =
      mergeLocal w (enableOtpKit rand acct.loginTree.data otpTimeout) := by
  simp only [enableOtp, h] at hok ⊢
  exact applyKit_world_of_ok _ _ _ hok

/-! ## C5: enableOtp then disableOtp round-trips to the no-2FA state -/

/-- C5: after `enableOtp` and then `disableOtp` both succeed, the account's
in-memory tree node carries none of `otpKey`/`otpTimeout`/`otpResetDate`, and
neither does the stash node with that `loginId`; `disableOtp`'s kit marks all
three fields for deletion in both partials and its server step is a DELETE
request. -/
theorem enable_disable_roundtrip (oracle1 oracle2 : Oracle) (rand : List Nat)
    (w : World) (accountId : String) (otpTimeout : Nat) (acct : AccountState)
    (o1 o2 : Outcome)
    (h : lookup w.accounts accountId = some acct)
    (h1 : enableOtp oracle1 rand w accountId otpTimeout = o1)
    (h1ok : o1.result = .ok ())
    (h2 : disableOtp oracle2 o1.world accountId = o2)
    (h2ok : o2.result = .ok ()) :
    (∃ acct2, lookup o2.world.accounts accountId = some acct2 ∧
       acct2.loginTree.data.otpKey = none ∧
       acct2.loginTree.data.otpTimeout = none ∧
       acct2.loginTree.data.otpResetDate = none) ∧
    (∀ s, searchTree (stashIdIs acct.loginTree.data.loginId)
        o2.world.stashTree = some s →
       s.otpKey = none ∧ s.otpTimeout = none ∧ s.otpResetDate = none) ∧
    (disableOtpKit acct.loginTree.data.loginId).serverMethod = some "DELETE" ∧
    (disableOtpKit acct.loginTree.data.loginId).stash =
      ⟨.del, .del, .del, .keep⟩ ∧
    (disableOtpKit acct.loginTree.data.loginId).login = ⟨.del, .del, .del⟩
    := by
  have hw1 : o1.world =
      mergeLocal w (enableOtpKit rand acct.loginTree.data otpTimeout) := by
    rw [← h1]
    exact enableOtp_ok_world oracle1 rand w accountId otpTimeout acct h
      (by rw [h1]; exact h1ok)
  rw [hw1] at h2
  have hlook1 : lookup (mergeLocal w
        (enableOtpKit rand acct.loginTree.data otpTimeout)).accounts accountId
      = some (mergeAccount (enableOtpKit rand acct.loginTree.data otpTimeout)
          acct) := by
    rw [lookup_mergeLocal, h]
    rfl
  have hstep := disableOtp_clears oracle2 _ accountId _ o2 hlook1 h2 h2ok
  refine ⟨hstep.1, ?_, rfl, rfl, rfl⟩
  intro s hs
  apply hstep.2 s
  rw [mergeAccount_root_loginId _ _ rfl]
  exact hs

def exRand : List Nat := [1, 2, 3, 4, 5, 6, 7, 8, 9, 10]

theorem enable_disable_roundtrip_witness :
    (∃ acct2,
       lookup (disableOtp oracleTrue
           (enableOtp oracleTrue exRand exWorld0 "acct" 7).world
           "acct").world.accounts "acct" = some acct2 ∧
       acct2.loginTree.data.otpKey = none ∧
       acct2.loginTree.data.otpTimeout = none ∧
       acct2.loginTree.data.otpResetDate = none) ∧
    (∀ s, searchTree (stashIdIs "L0")
        (disableOtp oracleTrue
           (enableOtp oracleTrue exRand exWorld0 "acct" 7).world
           "acct").world.stashTree = some s →
       s.otpKey = none ∧ s.otpTimeout = none ∧ s.otpResetDate = none) ∧
    (disableOtpKit "L0").serverMethod = some "DELETE" ∧
    (disableOtpKit "L0").stash = ⟨.del, .del, .del, .keep⟩ ∧
    (disableOtpKit "L0").login = ⟨.del, .del, .del⟩ :=
  enable_disable_roundtrip oracleTrue oracleTrue exRand exWorld0 "acct" 7
    ⟨.node exNode0 [], .node exNode0 []⟩ _ _ rfl rfl rfl rfl rfl

/-! ## C6: how enableOtp chooses the secret, and what its kit does -/

/-- C6: `enableOtp` reuses the tree's existing OTP secret (normalized through
`fixOtpKey`) whenever one exists — the freshly drawn random bytes are then
irrelevant — and derives the secret as base32 over the random bytes only when
no secret exists; the kit sets `otpKey` and `otpTimeout` and deletes any
pending `otpResetDate` in both the stash partial and the login partial, and
sends the new `{ otpKey, otpTimeout }` payload. -/
theorem enableOtpKit_spec (rand : List Nat) (root : LoginNode)
    (otpTimeout : Nat) :
    (∀ k, root.otpKey = some k →
       enableOtpSecret rand root = fixOtpKey k ∧
       ∀ rand2, enableOtpKit rand2 root otpTimeout =
         enableOtpKit rand root otpTimeout) ∧
    (root.otpKey = none → enableOtpSecret rand root = base32stringify rand) ∧
    (enableOtpKit rand root otpTimeout).server =
      some ⟨enableOtpSecret rand root, otpTimeout⟩ ∧
    (enableOtpKit rand root otpTimeout).stash =
      ⟨.set (enableOtpSecret rand root), .set otpTimeout, .del, .keep⟩ ∧
    (enableOtpKit rand root otpTimeout).login =
      ⟨.set (enableOtpSecret rand root), .set otpTimeout, .del⟩ := by
  refine ⟨?_, ?_, rfl, rfl, rfl⟩
  · intro k hk
    refine ⟨by simp [enableOtpSecret, hk], fun rand2 => ?_⟩
    simp [enableOtpKit, enableOtpSecret, hk]
  · intro hk
    simp [enableOtpSecret, hk]

theorem enableOtpKit_spec_witness :
    enableOtpSecret exRand exNodeKeyOnly = fixOtpKey "OTPSECRET" ∧
    enableOtpSecret exRand exNode0 = base32stringify exRand :=
  ⟨((enableOtpKit_spec exRand exNodeKeyOnly 7).1 "OTPSECRET" rfl).1,
   (enableOtpKit_spec exRand exNode0 7).2.1 rfl⟩

/-! ## C7: cancelOtpReset changes only otpResetDate and re-asserts the
current config -/

/-- C7: on success, `cancelOtpReset` sends exactly the tree's current
`otpKey` and `otpTimeout` back to the server, the affected in-memory tree
node changes only by losing `otpResetDate`, and so does the stash node with
that `loginId`; the secret itself is never changed locally. -/
theorem cancelOtpReset_frame (oracle : Oracle) (w : World)
    (accountId : String) (acct : AccountState) (K : String) (T : Nat)
    (o : Outcome)
    (h : lookup w.accounts accountId = some acct)
    (hK : acct.loginTree.data.otpKey = some K)
    (hT : acct.loginTree.data.otpTimeout = some T)
    (ho : cancelOtpReset oracle w accountId = o)
    (hok : o.result = .ok ()) :
    o.calls = [.change "POST" "/v2/login/otp" (some ⟨K, T⟩)] ∧
    (∃ acct2, lookup o.world.accounts accountId = some acct2 ∧
       acct2.loginTree.data =
         { acct.loginTree.data with otpResetDate := none }) ∧
    (∀ s0, searchTree (stashIdIs acct.loginTree.data.loginId) w.stashTree =
        some s0 →
       searchTree (stashIdIs acct.loginTree.data.loginId) o.world.stashTree =
         some { s0 with otpResetDate := none }) := by
  simp only [cancelOtpReset, h, hT, hK] at ho
  subst ho
  have happ := applyKit_ok oracle w
    (cancelOtpResetKit acct.loginTree.data.loginId K T)
    (.change "POST" "/v2/login/otp" (some ⟨K, T⟩)) rfl hok
  rw [happ]
  refine ⟨rfl, ?_, ?_⟩
  · refine ⟨mergeAccount (cancelOtpResetKit acct.loginTree.data.loginId K T)
        acct, ?_, ?_⟩
    · rw [lookup_mergeLocal, h]
      rfl
    · rw [mergeAccount_root_data _ _ rfl]
      rfl
  · intro s0 hs0
    show searchTree (stashIdIs acct.loginTree.data.loginId)
        (updateFirst (stashIdIs acct.loginTree.data.loginId)
          (patchStashNode ⟨.keep, .keep, .del, .keep⟩) w.stashTree) =
      some { s0 with otpResetDate := none }
    rw [searchTree_updateFirst (stashIdIs acct.loginTree.data.loginId)
      (patchStashNode ⟨.keep, .keep, .del, .keep⟩) (fun a => rfl), hs0]
    rfl

theorem cancelOtpReset_frame_witness :
    (cancelOtpReset oracleTrue exWorldEnabled "acct").calls =
      [.change "POST" "/v2/login/otp" (some ⟨"OTPSECRET2", 7⟩)] ∧
    searchTree (stashIdIs "L2")
        (cancelOtpReset oracleTrue exWorldEnabled "acct").world.stashTree =
      some { exStashEnabled with otpResetDate := none } := by
  have h := cancelOtpReset_frame oracleTrue exWorldEnabled "acct"
    ⟨.node exNodeEnabled [], .node exNodeEnabled []⟩ "OTPSECRET2" 7 _
    rfl rfl rfl rfl rfl
  exact ⟨h.1, h.2.2 exStashEnabled rfl⟩

/-! ## C8: resetOtp hashes the username and carries the reset token -/

/-- C8: `resetOtp` sends exactly one DELETE to `/v2/login/otp`, whose
`userId` is the (encoded) hash of the username — never the plaintext
username itself — and whose `otpResetAuth` is the reset token; when the
server reports a reset date, that date is returned. -/
theorem resetOtp_contract
    (server : String → String → OtpResetRequest → Option Nat)
    (username resetToken : String) :
    (resetOtp server username resetToken).2 =
      [("DELETE", "/v2/login/otp",
        ⟨base64stringify (hashUsername username), resetToken⟩)] ∧
    (∀ d, server "DELETE" "/v2/login/otp"
          ⟨base64stringify (hashUsername username), resetToken⟩ = some d →
        (resetOtp server username resetToken).1 = .ok d) ∧
    base64stringify (hashUsername username) ≠ username := by
  refine ⟨?_, ?_, ?_⟩
  · cases hsv : server "DELETE" "/v2/login/otp"
        ⟨base64stringify (hashUsername username), resetToken⟩ <;>
      simp [resetOtp, hsv]
  · intro d hd
    simp [resetOtp, hd]
  · intro heq
    have hlen := congrArg String.length heq
    rw [base64stringify, hashUsername, String.length_append,
      String.length_append] at hlen
    have h4 : ("b64:" : String).length = 4 := rfl
    have h5 : ("hash:" : String).length = 5 := rfl
    rw [h4, h5] at hlen
    omega

theorem resetOtp_contract_witness :
    (resetOtp (fun _ _ _ => some 42) "bob" "TOKEN").1 = .ok 42 :=
  (resetOtp_contract (fun _ _ _ => some 42) "bob" "TOKEN").2.1 42 rfl

end EdgeOtp
